import Mathlib

/-!
Verification of the foodtrax firmware (three near-duplicate Particle
AssetTracker sketches) against its natural-language specification.

The repository has three variants of the same tracker sketch:

* `HB` embeds `src/unnamed/part_000`, the "heartbeat" variant: it keeps a
  `lastPublishType` string ("F" = moved/offline signal, "G" = position
  report, "H" = heartbeat), a movement threshold of 0.001 degrees and a
  heartbeat interval of 7 minutes.
* `MG` embeds `src/gps-tracker.ino`, the motion-gated variant: it drops
  samples whose combined accelerometer magnitude is at least 16000, uses a
  movement threshold of 0.0005 degrees, and gates cloud delivery on the
  `transmittingData` flag.
* `Basic` embeds `src/unnamed/part_001`: the simplest variant, with
  threshold 0.001 and the `transmittingData` flag, whose movement deltas
  are the *signed* differences `previous - this` (no absolute value).

Coordinates are embedded as rationals (`ℚ`); the C sources use `float`,
and every claim under study is about threshold comparisons, never about
floating-point rounding, so exact rational arithmetic is the faithful
shallow embedding.  Timestamps (`millis()`, `lastPublish`) are embedded
as integers.  `Particle.publish(tag, payload, 60, PRIVATE)` is embedded
as appending a `Msg` to the list of published messages; the TTL and
visibility arguments are constants in every call and carry no logic.
-/

namespace Foodtrax

/-- One message handed to the Publisher: `Particle.publish(tag, payload)`. -/
structure Msg where
  tag : String
  payload : String
deriving Repr, DecidableEq

/-- One GPS/accelerometer sample, as the `AssetTracker t` object reports it
within a single call: `t.gpsFix()`, `t.readLon()` / `t.readLonDeg()`,
`t.readLat()` / `t.readLatDeg()`, `t.readLatLon()`, `t.readXYZmagnitude()`.
The `xyzMagnitude` field is consulted only by the motion-gated variant. -/
structure GpsSample where
  gpsFix : Bool
  lon : ℚ
  lat : ℚ
  latLon : String
  xyzMagnitude : ℤ
deriving Repr, DecidableEq

/-- Two-decimal rendering of a rational, approximating the
`String::format("%.2f", x)` calls in `batteryStatus`; the claims never
inspect this text beyond its presence in a published message. -/
def fmt2 (q : ℚ) : String :=
  let n : ℤ := round (q * 100)
  let sign := if n < 0 then "-" else ""
  let m := n.natAbs
  sign ++ toString (m / 100) ++ "." ++ (if m % 100 < 10 then "0" else "") ++ toString (m % 100)

/-- Payload of the battery report: `"v:" + %.2f voltage + ",c:" + %.2f SoC`. -/
def batteryPayload (vcell soc : ℚ) : String :=
  "v:" ++ fmt2 vcell ++ ",c:" ++ fmt2 soc

/-- Embeds `batteryStatus` (identical in all three variants): publish one
"B" message with the formatted fuel-gauge readings, return 1 when the
state of charge exceeds 10 and 0 otherwise.  It touches no tracker
memory, so it is a function of the fuel-gauge readings alone. -/
def batteryStatus (vcell soc : ℚ) : List Msg × ℤ :=
  ([{ tag := "B", payload := batteryPayload vcell soc }],
   if soc > 10 then 1 else 0)

/-- Embeds C `atoi`: skip leading whitespace, optional sign, value of the
leading run of digits, 0 when there is none (used by `transmitMode`). -/
def atoi (s : String) : ℤ :=
  let ds : List Char → ℤ := fun l =>
    ((l.takeWhile Char.isDigit).foldl (fun a c => a * 10 + (c.toNat - '0'.toNat)) 0 : ℕ)
  let cs := s.toList.dropWhile (fun c => c = ' ' ∨ c = '\t' ∨ c = '\n' ∨ c = '\r')
  match cs with
  | '-' :: rest => -(ds rest)
  | '+' :: rest => ds rest
  | _ => ds cs

namespace HB

/-- Embeds `f_abs` from `src/unnamed/part_000`. -/
def f_abs (f : ℚ) : ℚ :=
  if f < 0 then -1 * f else f

/-- Embeds `int delayHeartbeatMinutes = 7` from `src/unnamed/part_000`. -/
def delayHeartbeatMinutes : ℤ := 7

/-- The heartbeat interval in milliseconds, `delayHeartbeatMinutes*60*1000`. -/
def heartbeatMs : ℤ := delayHeartbeatMinutes * 60 * 1000

/-- Mutable globals of `src/unnamed/part_000` that `gpsPublishIfMoved` and
`gpsPublish` read or write: the remembered position, the baseline flag,
the last published message kind and the last publish timestamp. -/
structure TrackerState where
  previousCoordinatesSet : Bool
  previousLon : ℚ
  previousLat : ℚ
  lastPublishType : String
  lastPublish : ℤ
deriving Repr, DecidableEq

/-- Initial values of the globals in `src/unnamed/part_000`:
`previousCoordinatesSet = false`, coordinates 0, `lastPublishType = "F"`,
`lastPublish = 0`. -/
def initialState : TrackerState :=
  { previousCoordinatesSet := false
    previousLon := 0
    previousLat := 0
    lastPublishType := "F"
    lastPublish := 0 }

/-- Outcome of one call: the new globals, the messages handed to
`Particle.publish` during the call (in order), and the return code. -/
structure StepResult where
  state : TrackerState
  published : List Msg
  ret : ℤ
deriving Repr, DecidableEq

/-- Embeds `gpsPublishIfMoved` of `src/unnamed/part_000` (lines 100-160).
`now` stands for the value `millis()` returns during the call. -/
def gpsPublishIfMoved (s : GpsSample) (now : ℤ) (st : TrackerState) : StepResult :=
  if s.gpsFix = false then
    { state := st, published := [], ret := 5 }
  else
    let st1 :=
      if st.previousCoordinatesSet = false then
        { st with
          previousLon := s.lon
          previousLat := s.lat
          previousCoordinatesSet := true }
      else st
    let changeLon := f_abs (st1.previousLon - s.lon)
    let changeLat := f_abs (st1.previousLat - s.lat)
    if changeLon > 0.001 ∨ changeLat > 0.001 then
      let st2 := { st1 with previousLon := s.lon, previousLat := s.lat }
      if st2.lastPublishType ≠ "F" then
        { state := { st2 with lastPublishType := "F", lastPublish := now }
          published := [{ tag := "F", payload := "" }]
          ret := 2 }
      else
        { state := st2, published := [], ret := 4 }
    else if st1.lastPublishType = "F" then
      { state := { st1 with lastPublishType := "G", lastPublish := now }
        published := [{ tag := "G", payload := s.latLon }]
        ret := 3 }
    else if now - st1.lastPublish > delayHeartbeatMinutes * 60 * 1000 then
      { state := { st1 with lastPublishType := "H", lastPublish := now }
        published := [{ tag := "H", payload := "" }]
        ret := 0 }
    else
      { state := st1, published := [], ret := 1 }

/-- Embeds `gpsPublish` of `src/unnamed/part_000` (lines 73-84): with a fix,
overwrite the remembered position, set the baseline flag, publish the
coordinates and return 1; otherwise do nothing and return 0. -/
def gpsPublish (s : GpsSample) (st : TrackerState) : StepResult :=
  if s.gpsFix then
    { state := { st with
                 previousLon := s.lon
                 previousLat := s.lat
                 previousCoordinatesSet := true }
      published := [{ tag := "G", payload := s.latLon }]
      ret := 1 }
  else
    { state := st, published := [], ret := 0 }

/-- Runs `gpsPublishIfMoved` over a list of timestamped samples, returning
the final globals and every published message paired with the `millis()`
value of the call that emitted it. -/
def runList (st : TrackerState) : List (ℤ × GpsSample) → TrackerState × List (ℤ × Msg)
  | [] => (st, [])
  | (t, s) :: rest =>
      let r := gpsPublishIfMoved s t st
      let rec' := runList r.state rest
      (rec'.1, (r.published.map (fun m => (t, m))) ++ rec'.2)

end HB

namespace MG

/-- Embeds the Arduino `abs` macro used in `src/gps-tracker.ino`:
`((x) > 0 ? (x) : -(x))`. -/
def absArduino (x : ℚ) : ℚ :=
  if x > 0 then x else -x

/-- Embeds `int accelThreshold = 16000` from `src/gps-tracker.ino`. -/
def accelThreshold : ℤ := 16000

/-- Mutable globals of `src/gps-tracker.ino` that the embedded operations
read or write: the transmit flag, the remembered position and the
baseline flag. -/
structure TrackerState where
  transmittingData : ℤ
  previousCoordinatesSet : Bool
  previousLon : ℚ
  previousLat : ℚ
deriving Repr, DecidableEq

/-- Initial values of the globals in `src/gps-tracker.ino`. -/
def initialState : TrackerState :=
  { transmittingData := 1
    previousCoordinatesSet := false
    previousLon := 0
    previousLat := 0 }

/-- Outcome of one call in the motion-gated variant. -/
structure StepResult where
  state : TrackerState
  published : List Msg
  ret : ℤ
deriving Repr, DecidableEq

/-- Embeds `gpsPublishIfMoved` of `src/gps-tracker.ino` (lines 100-140):
samples without a fix, or with accelerometer magnitude at least
`accelThreshold`, fall through to `return 0`. -/
def gpsPublishIfMoved (s : GpsSample) (st : TrackerState) : StepResult :=
  if s.gpsFix then
    if s.xyzMagnitude < accelThreshold then
      let changeLon := absArduino (st.previousLon - s.lon)
      let changeLat := absArduino (st.previousLat - s.lat)
      if st.previousCoordinatesSet = false ∨ changeLon > 0.0005 ∨ changeLat > 0.0005 then
        let st2 := { st with
                     previousLon := s.lon
                     previousLat := s.lat
                     previousCoordinatesSet := true }
        if st2.transmittingData ≠ 0 then
          { state := st2, published := [{ tag := "G", payload := s.latLon }], ret := 1 }
        else
          { state := st2, published := [], ret := 3 }
      else
        { state := st, published := [], ret := 2 }
    else
      { state := st, published := [], ret := 0 }
  else
    { state := st, published := [], ret := 0 }

/-- Embeds `gpsPublish` of `src/gps-tracker.ino` (lines 86-97).  Note that
it publishes whenever there is a fix, without consulting
`transmittingData`. -/
def gpsPublish (s : GpsSample) (st : TrackerState) : StepResult :=
  if s.gpsFix then
    { state := { st with
                 previousLon := s.lon
                 previousLat := s.lat
                 previousCoordinatesSet := true }
      published := [{ tag := "G", payload := s.latLon }]
      ret := 1 }
  else
    { state := st, published := [], ret := 0 }

/-- Embeds `transmitMode` of `src/gps-tracker.ino`:
`transmittingData = atoi(command); return 1`. -/
def transmitMode (command : String) (st : TrackerState) : TrackerState × ℤ :=
  ({ st with transmittingData := atoi command }, 1)

end MG

namespace Basic

/-- Mutable globals of `src/unnamed/part_001` that the embedded operations
read or write. -/
structure TrackerState where
  transmittingData : ℤ
  previousCoordinatesSet : Bool
  previousLon : ℚ
  previousLat : ℚ
deriving Repr, DecidableEq

/-- Initial values of the globals in `src/unnamed/part_001`. -/
def initialState : TrackerState :=
  { transmittingData := 1
    previousCoordinatesSet := false
    previousLon := 0
    previousLat := 0 }

/-- Outcome of one call in the basic variant. -/
structure StepResult where
  state : TrackerState
  published : List Msg
  ret : ℤ
deriving Repr, DecidableEq

/-- Embeds `gpsPublishIfMoved` of `src/unnamed/part_001` (lines 131-165).
The source computes `changeLon = previousLon - thisLon` and
`changeLat = previousLat - thisLat` and compares the *signed* values
against 0.001 — there is no absolute value in this variant. -/
def gpsPublishIfMoved (s : GpsSample) (st : TrackerState) : StepResult :=
  if s.gpsFix then
    let changeLon := st.previousLon - s.lon
    let changeLat := st.previousLat - s.lat
    if st.previousCoordinatesSet = false ∨ changeLon > 0.001 ∨ changeLat > 0.001 then
      let st2 := { st with
                   previousLon := s.lon
                   previousLat := s.lat
                   previousCoordinatesSet := true }
      if st2.transmittingData ≠ 0 then
        { state := st2, published := [{ tag := "G", payload := s.latLon }], ret := 1 }
      else
        { state := st2, published := [], ret := 3 }
    else
      { state := st, published := [], ret := 2 }
  else
    { state := st, published := [], ret := 0 }

/-- Embeds `gpsPublish` of `src/unnamed/part_001` (lines 118-128): publishes
when there is a fix but, unlike the other two variants, does not touch the
remembered coordinates. -/
def gpsPublish (s : GpsSample) (st : TrackerState) : StepResult :=
  if s.gpsFix then
    { state := st, published := [{ tag := "G", payload := s.latLon }], ret := 1 }
  else
    { state := st, published := [], ret := 0 }

/-- Embeds `transmitMode` of `src/unnamed/part_001`. -/
def transmitMode (command : String) (st : TrackerState) : TrackerState × ℤ :=
  ({ st with transmittingData := atoi command }, 1)

/-- Embeds `int delayMinutes = 10` from `src/unnamed/part_001`. -/
def delayMinutes : ℤ := 10

/-- Embeds one pass of `loop` from `src/unnamed/part_001` (lines 58-106),
the only variant whose loop holds the decision logic inline instead of
calling `gpsPublishIfMoved`.  `lastPublish` is the variant's timing global
and `now` the value `millis()` returns; the result is the new tracker
memory, the new `lastPublish`, and the published messages. -/
def loop (s : GpsSample) (now : ℤ) (st : TrackerState) (lastPublish : ℤ) :
    TrackerState × ℤ × List Msg :=
  if now - lastPublish > delayMinutes * 60 * 1000 then
    let lp := now
    if s.gpsFix then
      let changeLon := st.previousLon - s.lon
      let changeLat := st.previousLat - s.lat
      if st.previousCoordinatesSet = false ∨ changeLon > 0.001 ∨ changeLat > 0.001 then
        let st2 := { st with
                     previousLon := s.lon
                     previousLat := s.lat
                     previousCoordinatesSet := true }
        if st2.transmittingData ≠ 0 then
          (st2, lp, [{ tag := "G", payload := s.latLon }])
        else
          (st2, lp, [])
      else
        (st, lp, [])
    else
      (st, lp, [])
  else
    (st, lastPublish, [])

end Basic

/-- A concrete sample with a valid fix, for witnesses. -/
def sampleA : GpsSample :=
  { gpsFix := true, lon := 10, lat := 20, latLon := "20.0000,10.0000", xyzMagnitude := 0 }

/-- A concrete sample without a fix, for witnesses. -/
def sampleNoFix : GpsSample :=
  { gpsFix := false, lon := 0, lat := 0, latLon := "", xyzMagnitude := 0 }

/-- A concrete motion-gated tracker state, for witnesses. -/
def stMGw : MG.TrackerState :=
  { transmittingData := 0, previousCoordinatesSet := true, previousLon := 1, previousLat := 2 }

/-- A basic-variant state with an established baseline at the origin. -/
def stB5 : Basic.TrackerState :=
  { transmittingData := 1, previousCoordinatesSet := true, previousLon := 0, previousLat := 0 }

/-- A sample 0.01 degrees east of the origin. -/
def sampleEast : GpsSample :=
  { gpsFix := true, lon := 0.01, lat := 0, latLon := "0.0000,0.0100", xyzMagnitude := 0 }

/-- A sample 0.01 degrees west of the origin. -/
def sampleWest : GpsSample :=
  { gpsFix := true, lon := -0.01, lat := 0, latLon := "0.0000,-0.0100", xyzMagnitude := 0 }

/-- A basic-variant state with the transmit flag off, for witnesses. -/
def stBw : Basic.TrackerState :=
  { transmittingData := 0, previousCoordinatesSet := true, previousLon := 0, previousLat := 0 }

/-- A heartbeat-variant state at the origin whose last message was a
position report. -/
def stHG : HB.TrackerState :=
  { previousCoordinatesSet := true, previousLon := 0, previousLat := 0,
    lastPublishType := "G", lastPublish := 0 }

/-- A heartbeat-variant state at the origin whose last message was the
moved/offline signal. -/
def stHF : HB.TrackerState :=
  { previousCoordinatesSet := true, previousLon := 0, previousLat := 0,
    lastPublishType := "F", lastPublish := 100 }

/-- A sample a tenth of the threshold away from the origin. -/
def sampleNear : GpsSample :=
  { gpsFix := true, lon := 0.0001, lat := 0, latLon := "0.0000,0.0001", xyzMagnitude := 0 }

/-- Projection of the motion-gated tracker memory that the transmit flag
must not influence. -/
def MG.memoryOf (r : MG.StepResult) : ℚ × ℚ × Bool :=
  (r.state.previousLon, r.state.previousLat, r.state.previousCoordinatesSet)

/-- Projection of the basic-variant tracker memory that the transmit flag
must not influence. -/
def Basic.memoryOf (r : Basic.StepResult) : ℚ × ℚ × Bool :=
  (r.state.previousLon, r.state.previousLat, r.state.previousCoordinatesSet)

/-- First drift sample: 0.0009 degrees east of the origin. -/
def driftA : GpsSample :=
  { gpsFix := true, lon := 0.0009, lat := 0, latLon := "d1", xyzMagnitude := 0 }

/-- Second drift sample: 0.0018 degrees east of the origin, only 0.0009
away from the first drift sample. -/
def driftB : GpsSample :=
  { gpsFix := true, lon := 0.0018, lat := 0, latLon := "d2", xyzMagnitude := 0 }

/-- Third drift sample: same position as the second. -/
def driftC : GpsSample :=
  { gpsFix := true, lon := 0.0018, lat := 0, latLon := "d3", xyzMagnitude := 0 }

/-- The state `st` still carries the baseline coordinates of `st0` and an
established baseline flag. -/
def HB.SameBase (st0 st : HB.TrackerState) : Prop :=
  st.previousLon = st0.previousLon ∧ st.previousLat = st0.previousLat ∧
  st.previousCoordinatesSet = true

/-- Every sample of the run has a fix and sits within the movement
threshold of the baseline coordinates of `st0`, in both axes. -/
def HB.Stationary (st0 : HB.TrackerState) (l : List (ℤ × GpsSample)) : Prop :=
  ∀ p ∈ l, p.2.gpsFix = true ∧
    HB.f_abs (st0.previousLon - p.2.lon) ≤ 0.001 ∧
    HB.f_abs (st0.previousLat - p.2.lat) ≤ 0.001

/-- A sample that has a fix and sits exactly on the origin baseline. -/
def sampleOrigin : GpsSample :=
  { gpsFix := true, lon := 0, lat := 0, latLon := "0.0000,0.0000", xyzMagnitude := 0 }

/-- C3: with no valid fix, `gpsPublishIfMoved` leaves the tracker memory of
the heartbeat variant and of the motion-gated variant unchanged, publishes
nothing, and returns the variant's no-fix status code (5, resp. 0). -/
theorem nofix_pure_noop (s : GpsSample) (now : ℤ)
    (stH : HB.TrackerState) (stM : MG.TrackerState)
    (hfix : s.gpsFix = false) :
    HB.gpsPublishIfMoved s now stH = { state := stH, published := [], ret := 5 } ∧
    MG.gpsPublishIfMoved s stM = { state := stM, published := [], ret := 0 } := by
  constructor <;> simp [HB.gpsPublishIfMoved, MG.gpsPublishIfMoved, hfix]

theorem nofix_pure_noop_witness :
    HB.gpsPublishIfMoved sampleNoFix 0 HB.initialState =
      { state := HB.initialState, published := [], ret := 5 } ∧
    MG.gpsPublishIfMoved sampleNoFix MG.initialState =
      { state := MG.initialState, published := [], ret := 0 } :=
  nofix_pure_noop sampleNoFix 0 HB.initialState MG.initialState rfl

/-- C10: in the motion-gated and heartbeat variants, `gpsPublish` with a fix
re-anchors the remembered position to the current reading, sets the baseline
flag, publishes the coordinates and returns 1; without a fix it changes
nothing and returns 0. -/
theorem gps_publish_rebaseline (s : GpsSample)
    (stM : MG.TrackerState) (stH : HB.TrackerState) :
    (s.gpsFix = true →
      MG.gpsPublish s stM =
        { state := { stM with previousLon := s.lon, previousLat := s.lat, previousCoordinatesSet := true }
          published := [{ tag := "G", payload := s.latLon }]
          ret := 1 } ∧
      HB.gpsPublish s stH =
        { state := { stH with previousLon := s.lon, previousLat := s.lat, previousCoordinatesSet := true }
          published := [{ tag := "G", payload := s.latLon }]
          ret := 1 }) ∧
    (s.gpsFix = false →
      MG.gpsPublish s stM = { state := stM, published := [], ret := 0 } ∧
      HB.gpsPublish s stH = { state := stH, published := [], ret := 0 }) := by
  constructor <;> intro h <;> simp [MG.gpsPublish, HB.gpsPublish, h]

theorem gps_publish_rebaseline_witness :
    HB.gpsPublish sampleA HB.initialState =
      { state := { HB.initialState with previousLon := sampleA.lon, previousLat := sampleA.lat, previousCoordinatesSet := true }
        published := [{ tag := "G", payload := sampleA.latLon }]
        ret := 1 } :=
  ((gps_publish_rebaseline sampleA MG.initialState HB.initialState).1 rfl).2

/-- C7 counterexample: the very first `gpsPublishIfMoved` call of the
heartbeat variant with a valid fix does emit a message.  Starting from the
initial globals (`previousCoordinatesSet = false`, `lastPublishType = "F"`),
the baseline is accepted, the deltas vanish, and the `lastPublishType == "F"`
branch publishes a "G" position report and returns 3 — refuting the claim
that no message is emitted. -/
theorem hb_first_fix_emits :
    (HB.gpsPublishIfMoved sampleA 0 HB.initialState).published =
      [{ tag := "G", payload := "20.0000,10.0000" }] ∧
    (HB.gpsPublishIfMoved sampleA 0 HB.initialState).ret = 3 := by
  norm_num [HB.gpsPublishIfMoved, HB.initialState, HB.f_abs, sampleA]

/-- C7 amended: the first `gpsPublishIfMoved` call of the heartbeat variant
with a valid fix accepts the current position as baseline and, because the
initial `lastPublishType` is "F", immediately publishes one position report
(tag "G", return code 3), recording `lastPublishType = "G"` and the
publish time. -/
theorem hb_first_fix_report (s : GpsSample) (now : ℤ) (hfix : s.gpsFix = true) :
    HB.gpsPublishIfMoved s now HB.initialState =
      { state :=
          { previousCoordinatesSet := true
            previousLon := s.lon
            previousLat := s.lat
            lastPublishType := "G"
            lastPublish := now }
        published := [{ tag := "G", payload := s.latLon }]
        ret := 3 } := by
  norm_num [HB.gpsPublishIfMoved, HB.initialState, HB.f_abs, hfix]

theorem hb_first_fix_report_witness :
    HB.gpsPublishIfMoved sampleA 7 HB.initialState =
      { state :=
          { previousCoordinatesSet := true
            previousLon := sampleA.lon
            previousLat := sampleA.lat
            lastPublishType := "G"
            lastPublish := 7 }
        published := [{ tag := "G", payload := sampleA.latLon }]
        ret := 3 } :=
  hb_first_fix_report sampleA 7 rfl

/-- C5: the basic variant (`src/unnamed/part_001`) compares the *signed*
differences `previous - this` against the threshold, so an eastward move of
0.01 degrees (ten times the threshold) is not detected (return code 2, no
publish) while the mirror-image westward move is (return code 1, one
publish).  This contradicts the claim that every variant uses absolute
differences with sign-symmetric detection. -/
theorem basic_variant_signed_delta :
    Basic.gpsPublishIfMoved sampleEast stB5 = { state := stB5, published := [], ret := 2 } ∧
    (Basic.gpsPublishIfMoved sampleWest stB5).ret = 1 ∧
    (Basic.gpsPublishIfMoved sampleWest stB5).published =
      [{ tag := "G", payload := "0.0000,-0.0100" }] := by
  norm_num [Basic.gpsPublishIfMoved, stB5, sampleEast, sampleWest]

/-- C9 counterexample: with `transmittingData = 0`, the forced position
publish `gpsPublish` of the motion-gated variant still hands a "G" message
to the Publisher — the flag does not suppress it. -/
theorem forced_publish_ignores_flag :
    stMGw.transmittingData = 0 ∧
    (MG.gpsPublish sampleA stMGw).published = [{ tag := "G", payload := "20.0000,10.0000" }] := by
  constructor
  · rfl
  · simp [MG.gpsPublish, sampleA]

/-- C9 amended: `transmittingData = 0` suppresses exactly the
movement-triggered publishes of `gpsPublishIfMoved` (in both variants that
have the flag) and of the basic variant's inline `loop` body; the forced
position publish `gpsPublish` and the battery report `batteryStatus` hand
their messages to the Publisher regardless of the flag. -/
theorem transmit_flag_gates_only_moved_publish (s : GpsSample)
    (stM : MG.TrackerState) (stB : Basic.TrackerState) (vcell soc : ℚ)
    (hM : stM.transmittingData = 0) (hB : stB.transmittingData = 0) :
    (MG.gpsPublishIfMoved s stM).published = [] ∧
    (Basic.gpsPublishIfMoved s stB).published = [] ∧
    (s.gpsFix = true →
      (MG.gpsPublish s stM).published = [{ tag := "G", payload := s.latLon }] ∧
      (Basic.gpsPublish s stB).published = [{ tag := "G", payload := s.latLon }]) ∧
    (batteryStatus vcell soc).1 = [{ tag := "B", payload := batteryPayload vcell soc }] ∧
    (∀ (now lp : ℤ), (Basic.loop s now stB lp).2.2 = []) := by
  refine ⟨?_, ?_, ?_, rfl, ?_⟩
  · unfold MG.gpsPublishIfMoved
    split_ifs <;> simp_all [apply_ite]
  · unfold Basic.gpsPublishIfMoved
    split_ifs <;> simp_all [apply_ite]
  · intro h
    simp [MG.gpsPublish, Basic.gpsPublish, h]
  · intro now lp
    unfold Basic.loop
    dsimp only
    split_ifs <;> simp_all

theorem transmit_flag_gates_only_moved_publish_witness :
    (MG.gpsPublishIfMoved sampleA stMGw).published = [] ∧
    (Basic.gpsPublishIfMoved sampleA stBw).published = [] ∧
    (sampleA.gpsFix = true →
      (MG.gpsPublish sampleA stMGw).published = [{ tag := "G", payload := sampleA.latLon }] ∧
      (Basic.gpsPublish sampleA stBw).published = [{ tag := "G", payload := sampleA.latLon }]) ∧
    (batteryStatus 4 50).1 = [{ tag := "B", payload := batteryPayload 4 50 }] ∧
    (∀ (now lp : ℤ), (Basic.loop sampleA now stBw lp).2.2 = []) :=
  transmit_flag_gates_only_moved_publish sampleA stMGw stBw 4 50 rfl rfl

/-- C1: in the heartbeat variant, from a state with an established baseline
whose last message was not the moved/offline signal, a sample with a fix
whose delta exceeds the threshold in either axis makes `gpsPublishIfMoved`
publish exactly one "F" signal, record it (`lastPublishType = "F"`, publish
time, updated coordinates) and return 2; from a state whose last message
already was "F", the same movement publishes nothing and returns 4 (the
coordinates still update). -/
theorem hb_moved_edge_signal (s : GpsSample) (now : ℤ) (st : HB.TrackerState)
    (hfix : s.gpsFix = true) (hset : st.previousCoordinatesSet = true)
    (hmove : HB.f_abs (st.previousLon - s.lon) > 0.001 ∨
             HB.f_abs (st.previousLat - s.lat) > 0.001) :
    (st.lastPublishType ≠ "F" →
      HB.gpsPublishIfMoved s now st =
        { state := { st with previousLon := s.lon, previousLat := s.lat, lastPublishType := "F", lastPublish := now }
          published := [{ tag := "F", payload := "" }]
          ret := 2 }) ∧
    (st.lastPublishType = "F" →
      HB.gpsPublishIfMoved s now st =
        { state := { st with previousLon := s.lon, previousLat := s.lat }
          published := []
          ret := 4 }) := by
  constructor <;> intro hF <;> simp [HB.gpsPublishIfMoved, hfix, hset, hmove, hF]

theorem hb_moved_edge_signal_witness :
    HB.gpsPublishIfMoved sampleEast 5 stHG =
      { state := { stHG with previousLon := sampleEast.lon, previousLat := sampleEast.lat, lastPublishType := "F", lastPublish := 5 }
        published := [{ tag := "F", payload := "" }]
        ret := 2 } :=
  (hb_moved_edge_signal sampleEast 5 stHG rfl rfl
      (Or.inl (by norm_num [HB.f_abs, stHG, sampleEast]))).1 (by decide)

/-- C2: in the heartbeat variant, from any state whose last message was the
moved/offline signal ("F"), a sample with a fix whose deltas are under the
threshold in both axes makes `gpsPublishIfMoved` publish the position
report (tag "G"), return 3 and record the new message kind and publish
time — with no condition on how much time has elapsed. -/
theorem hb_return_to_stationary_report (s : GpsSample) (now : ℤ) (st : HB.TrackerState)
    (hfix : s.gpsFix = true) (hF : st.lastPublishType = "F")
    (hlon : HB.f_abs (st.previousLon - s.lon) < 0.001)
    (hlat : HB.f_abs (st.previousLat - s.lat) < 0.001) :
    (HB.gpsPublishIfMoved s now st).published = [{ tag := "G", payload := s.latLon }] ∧
    (HB.gpsPublishIfMoved s now st).ret = 3 ∧
    (HB.gpsPublishIfMoved s now st).state.lastPublishType = "G" ∧
    (HB.gpsPublishIfMoved s now st).state.lastPublish = now := by
  have h1 : ¬ (HB.f_abs (st.previousLon - s.lon) > 0.001) := by linarith
  have h2 : ¬ (HB.f_abs (st.previousLat - s.lat) > 0.001) := by linarith
  rcases hs : st.previousCoordinatesSet with _ | _
  · have hz : HB.f_abs 0 = 0 := by norm_num [HB.f_abs]
    norm_num [HB.gpsPublishIfMoved, hfix, hs, hF, hz]
  · simp [HB.gpsPublishIfMoved, hfix, hs, hF, h1, h2]

theorem hb_return_to_stationary_report_witness :
    (HB.gpsPublishIfMoved sampleNear 101 stHF).published =
      [{ tag := "G", payload := sampleNear.latLon }] ∧
    (HB.gpsPublishIfMoved sampleNear 101 stHF).ret = 3 ∧
    (HB.gpsPublishIfMoved sampleNear 101 stHF).state.lastPublishType = "G" ∧
    (HB.gpsPublishIfMoved sampleNear 101 stHF).state.lastPublish = 101 :=
  hb_return_to_stationary_report sampleNear 101 stHF rfl rfl
    (by norm_num [HB.f_abs, stHF, sampleNear])
    (by norm_num [HB.f_abs, stHF, sampleNear])

/-- C8: in the two variants with a transmit switch, the tracker memory left
by `gpsPublishIfMoved` is the same for every value of `transmittingData`,
and the flag influences only whether the Publisher is called and the
return code: on the would-send branch a non-zero flag publishes "G" and
returns 1 where a zero flag publishes nothing and returns 3; on every other
branch nothing is published and the return codes agree. -/
theorem transmit_flag_memory_invariance (s : GpsSample)
    (stM : MG.TrackerState) (stB : Basic.TrackerState) (a b : ℤ) (ha : a ≠ 0) :
    MG.memoryOf (MG.gpsPublishIfMoved s { stM with transmittingData := a }) =
      MG.memoryOf (MG.gpsPublishIfMoved s { stM with transmittingData := b }) ∧
    Basic.memoryOf (Basic.gpsPublishIfMoved s { stB with transmittingData := a }) =
      Basic.memoryOf (Basic.gpsPublishIfMoved s { stB with transmittingData := b }) ∧
    (((MG.gpsPublishIfMoved s { stM with transmittingData := a }).published = [{ tag := "G", payload := s.latLon }] ∧
      (MG.gpsPublishIfMoved s { stM with transmittingData := a }).ret = 1 ∧
      (MG.gpsPublishIfMoved s { stM with transmittingData := 0 }).published = [] ∧
      (MG.gpsPublishIfMoved s { stM with transmittingData := 0 }).ret = 3) ∨
     ((MG.gpsPublishIfMoved s { stM with transmittingData := a }).published = [] ∧
      (MG.gpsPublishIfMoved s { stM with transmittingData := 0 }).published = [] ∧
      (MG.gpsPublishIfMoved s { stM with transmittingData := a }).ret =
        (MG.gpsPublishIfMoved s { stM with transmittingData := 0 }).ret)) ∧
    (((Basic.gpsPublishIfMoved s { stB with transmittingData := a }).published = [{ tag := "G", payload := s.latLon }] ∧
      (Basic.gpsPublishIfMoved s { stB with transmittingData := a }).ret = 1 ∧
      (Basic.gpsPublishIfMoved s { stB with transmittingData := 0 }).published = [] ∧
      (Basic.gpsPublishIfMoved s { stB with transmittingData := 0 }).ret = 3) ∨
     ((Basic.gpsPublishIfMoved s { stB with transmittingData := a }).published = [] ∧
      (Basic.gpsPublishIfMoved s { stB with transmittingData := 0 }).published = [] ∧
      (Basic.gpsPublishIfMoved s { stB with transmittingData := a }).ret =
        (Basic.gpsPublishIfMoved s { stB with transmittingData := 0 }).ret)) := by
  refine ⟨?_, ?_, ?_, ?_⟩
  · unfold MG.gpsPublishIfMoved
    dsimp only
    split_ifs <;> simp_all [MG.memoryOf]
  · unfold Basic.gpsPublishIfMoved
    dsimp only
    split_ifs <;> simp_all [Basic.memoryOf]
  · unfold MG.gpsPublishIfMoved
    dsimp only
    split_ifs <;> simp_all
  · unfold Basic.gpsPublishIfMoved
    dsimp only
    split_ifs <;> simp_all

theorem transmit_flag_memory_invariance_witness :
    MG.memoryOf (MG.gpsPublishIfMoved sampleA { stMGw with transmittingData := 1 }) =
      MG.memoryOf (MG.gpsPublishIfMoved sampleA { stMGw with transmittingData := 0 }) :=
  (transmit_flag_memory_invariance sampleA stMGw stBw 1 0 (by decide)).1

/-- C4: the baseline flag is monotonic in every variant.  It starts false;
the first `gpsPublishIfMoved` with a valid fix (and, in the motion-gated
variant, accelerometer magnitude under the gate) sets it to true; and no
embedded operation that touches the tracker memory ever returns it to
false. -/
theorem baseline_monotonic :
    (HB.initialState.previousCoordinatesSet = false ∧
     MG.initialState.previousCoordinatesSet = false ∧
     Basic.initialState.previousCoordinatesSet = false) ∧
    (∀ (s : GpsSample) (now : ℤ) (st : HB.TrackerState),
       st.previousCoordinatesSet = false → s.gpsFix = true →
       (HB.gpsPublishIfMoved s now st).state.previousCoordinatesSet = true) ∧
    (∀ (s : GpsSample) (st : MG.TrackerState),
       st.previousCoordinatesSet = false → s.gpsFix = true →
       s.xyzMagnitude < MG.accelThreshold →
       (MG.gpsPublishIfMoved s st).state.previousCoordinatesSet = true) ∧
    (∀ (s : GpsSample) (st : Basic.TrackerState),
       st.previousCoordinatesSet = false → s.gpsFix = true →
       (Basic.gpsPublishIfMoved s st).state.previousCoordinatesSet = true) ∧
    (∀ (s : GpsSample) (now : ℤ) (st : HB.TrackerState),
       st.previousCoordinatesSet = true →
       (HB.gpsPublishIfMoved s now st).state.previousCoordinatesSet = true ∧
       (HB.gpsPublish s st).state.previousCoordinatesSet = true) ∧
    (∀ (s : GpsSample) (st : MG.TrackerState) (cmd : String),
       st.previousCoordinatesSet = true →
       (MG.gpsPublishIfMoved s st).state.previousCoordinatesSet = true ∧
       (MG.gpsPublish s st).state.previousCoordinatesSet = true ∧
       (MG.transmitMode cmd st).1.previousCoordinatesSet = true) ∧
    (∀ (s : GpsSample) (st : Basic.TrackerState) (cmd : String),
       st.previousCoordinatesSet = true →
       (Basic.gpsPublishIfMoved s st).state.previousCoordinatesSet = true ∧
       (Basic.gpsPublish s st).state.previousCoordinatesSet = true ∧
       (Basic.transmitMode cmd st).1.previousCoordinatesSet = true) ∧
    (∀ (s : GpsSample) (now lp : ℤ) (st : Basic.TrackerState),
       st.previousCoordinatesSet = true →
       (Basic.loop s now st lp).1.previousCoordinatesSet = true) := by
  refine ⟨⟨rfl, rfl, rfl⟩, ?_, ?_, ?_, ?_, ?_, ?_, ?_⟩
  · intro s now st h0 hfix
    unfold HB.gpsPublishIfMoved
    dsimp only
    split_ifs <;> simp_all
  · intro s st h0 hfix hmag
    unfold MG.gpsPublishIfMoved
    dsimp only
    split_ifs <;> simp_all
  · intro s st h0 hfix
    unfold Basic.gpsPublishIfMoved
    dsimp only
    split_ifs <;> simp_all
  · intro s now st h1
    constructor
    · unfold HB.gpsPublishIfMoved
      dsimp only
      split_ifs <;> simp_all
    · unfold HB.gpsPublish
      split_ifs <;> simp_all
  · intro s st cmd h1
    refine ⟨?_, ?_, ?_⟩
    · unfold MG.gpsPublishIfMoved
      dsimp only
      split_ifs <;> simp_all
    · unfold MG.gpsPublish
      split_ifs <;> simp_all
    · simp [MG.transmitMode, h1]
  · intro s st cmd h1
    refine ⟨?_, ?_, ?_⟩
    · unfold Basic.gpsPublishIfMoved
      dsimp only
      split_ifs <;> simp_all
    · unfold Basic.gpsPublish
      split_ifs <;> simp_all
    · simp [Basic.transmitMode, h1]
  · intro s now lp st h1
    unfold Basic.loop
    dsimp only
    split_ifs <;> simp_all

theorem baseline_monotonic_witness :
    (HB.gpsPublishIfMoved sampleA 0 HB.initialState).state.previousCoordinatesSet = true ∧
    (MG.gpsPublishIfMoved sampleA MG.initialState).state.previousCoordinatesSet = true :=
  ⟨baseline_monotonic.2.1 sampleA 0 HB.initialState rfl rfl,
   baseline_monotonic.2.2.1 sampleA MG.initialState rfl rfl (by decide)⟩

/-- C6 counterexample: consecutive samples all closer than the threshold to
each other can still drift away from the remembered baseline.  From a
baseline at the origin, the samples 0.0009 and 0.0018 east (consecutive
deltas 0.0009, 0, all under 0.001) make the second call take the movement
branch: the remembered longitude changes, and the run publishes twice
(the "F" at time 2, the return-to-stationary "G" at time 3) inside one
heartbeat window. -/
theorem hb_cumulative_drift_refutes :
    (HB.f_abs (stHG.previousLon - driftA.lon) < 0.001 ∧
     HB.f_abs (stHG.previousLat - driftA.lat) < 0.001 ∧
     HB.f_abs (driftA.lon - driftB.lon) < 0.001 ∧
     HB.f_abs (driftA.lat - driftB.lat) < 0.001 ∧
     HB.f_abs (driftB.lon - driftC.lon) < 0.001 ∧
     HB.f_abs (driftB.lat - driftC.lat) < 0.001) ∧
    (HB.runList stHG [(1, driftA), (2, driftB), (3, driftC)]).1.previousLon ≠ stHG.previousLon ∧
    (HB.runList stHG [(1, driftA), (2, driftB), (3, driftC)]).2.map Prod.fst = [2, 3] ∧
    (3 : ℤ) - 2 < HB.heartbeatMs := by
  norm_num +decide [HB.runList, HB.gpsPublishIfMoved, HB.f_abs, HB.heartbeatMs,
    HB.delayHeartbeatMinutes, stHG, driftA, driftB, driftC]

/-- One stationary step: the baseline is untouched, and the call either
publishes nothing and leaves the state unchanged, or publishes exactly one
message, stamps it into `lastPublish`, leaves `lastPublishType` different
from "F", and fires only on the return-to-stationary edge or after a full
heartbeat interval. -/
lemma HB.step_stationary (st0 st : HB.TrackerState) (t : ℤ) (s : GpsSample)
    (hb : HB.SameBase st0 st) (hfix : s.gpsFix = true)
    (hlon : HB.f_abs (st0.previousLon - s.lon) ≤ 0.001)
    (hlat : HB.f_abs (st0.previousLat - s.lat) ≤ 0.001) :
    HB.SameBase st0 (HB.gpsPublishIfMoved s t st).state ∧
    (((HB.gpsPublishIfMoved s t st).published = [] ∧ (HB.gpsPublishIfMoved s t st).state = st) ∨
     ((∃ m, (HB.gpsPublishIfMoved s t st).published = [m]) ∧
      (HB.gpsPublishIfMoved s t st).state.lastPublishType ≠ "F" ∧
      (HB.gpsPublishIfMoved s t st).state.lastPublish = t ∧
      (st.lastPublishType = "F" ∨ HB.heartbeatMs < t - st.lastPublish))) := by
  obtain ⟨hblon, hblat, hbset⟩ := hb
  have hmv : ¬(HB.f_abs (st.previousLon - s.lon) > 0.001 ∨
      HB.f_abs (st.previousLat - s.lat) > 0.001) := by
    rintro (h | h)
    · rw [hblon] at h
      exact not_lt.mpr hlon h
    · rw [hblat] at h
      exact not_lt.mpr hlat h
  by_cases hF : st.lastPublishType = "F"
  · have hres : HB.gpsPublishIfMoved s t st =
        { state := { st with lastPublishType := "G", lastPublish := t }
          published := [{ tag := "G", payload := s.latLon }]
          ret := 3 } := by
      simp [HB.gpsPublishIfMoved, hfix, hbset, hmv, hF]
    rw [hres]
    exact ⟨⟨hblon, hblat, hbset⟩, Or.inr ⟨⟨_, rfl⟩, by simp, rfl, Or.inl hF⟩⟩
  · by_cases hH : HB.heartbeatMs < t - st.lastPublish
    · have hH2 : t - st.lastPublish > HB.delayHeartbeatMinutes * 60 * 1000 := hH
      have hres : HB.gpsPublishIfMoved s t st =
          { state := { st with lastPublishType := "H", lastPublish := t }
            published := [{ tag := "H", payload := "" }]
            ret := 0 } := by
        simp [HB.gpsPublishIfMoved, hfix, hbset, hmv, hF, hH2]
      rw [hres]
      exact ⟨⟨hblon, hblat, hbset⟩, Or.inr ⟨⟨_, rfl⟩, by simp, rfl, Or.inr hH⟩⟩
    · have hH2 : ¬(t - st.lastPublish > HB.delayHeartbeatMinutes * 60 * 1000) := hH
      have hres : HB.gpsPublishIfMoved s t st = { state := st, published := [], ret := 1 } := by
        simp [HB.gpsPublishIfMoved, hfix, hbset, hmv, hF, hH2]
      rw [hres]
      exact ⟨⟨hblon, hblat, hbset⟩, Or.inl ⟨rfl, rfl⟩⟩

/-- A stationary run keeps the baseline, spaces any two consecutive
emissions more than one heartbeat interval apart, and its first emission
either is the return-to-stationary report (the state entered with
`lastPublishType = "F"`) or comes more than one heartbeat interval after
the `lastPublish` it entered with. -/
lemma HB.run_stationary (st0 : HB.TrackerState) :
    ∀ (l : List (ℤ × GpsSample)) (st : HB.TrackerState),
      HB.SameBase st0 st → HB.Stationary st0 l →
      HB.SameBase st0 (HB.runList st l).1 ∧
      List.Chain' (fun a b => HB.heartbeatMs < b.1 - a.1) (HB.runList st l).2 ∧
      (∀ q ∈ ((HB.runList st l).2).head?,
         st.lastPublishType = "F" ∨ HB.heartbeatMs < q.1 - st.lastPublish) := by
  intro l
  induction l with
  | nil =>
    intro st hb _
    simp [HB.runList]
    exact hb
  | cons p rest ih =>
    intro st hb hl
    obtain ⟨t, s⟩ := p
    have hp := hl (t, s) (List.mem_cons_self _ _)
    have hrest : HB.Stationary st0 rest := fun q hq => hl q (List.mem_cons_of_mem _ hq)
    have hstep := HB.step_stationary st0 st t s hb hp.1 hp.2.1 hp.2.2
    have ihr := ih (HB.gpsPublishIfMoved s t st).state hstep.1 hrest
    rcases hstep.2 with ⟨hpub, hst⟩ | ⟨⟨m, hm⟩, htype, hlp, hdisj⟩
    · refine ⟨?_, ?_, ?_⟩
      · simpa [HB.runList, hpub, hst] using ihr.1
      · simpa [HB.runList, hpub, hst] using ihr.2.1
      · simpa [HB.runList, hpub, hst] using ihr.2.2
    · have hchain : List.Chain' (fun a b => HB.heartbeatMs < b.1 - a.1)
          ((t, m) :: (HB.runList (HB.gpsPublishIfMoved s t st).state rest).2) := by
        rw [List.chain'_cons']
        refine ⟨?_, ihr.2.1⟩
        intro q hq
        rcases ihr.2.2 q hq with hF | hgap
        · exact absurd hF htype
        · rw [hlp] at hgap
          exact hgap
      refine ⟨?_, ?_, ?_⟩
      · simpa [HB.runList] using ihr.1
      · simpa [HB.runList, hm] using hchain
      · intro q hq
        simp [HB.runList, hm] at hq
        rw [← hq]
        exact hdisj

/-- C6 amended: after baseline, for every run of samples that all have a
fix and all sit within the movement threshold of the *remembered* position
in both axes (which, unlike closeness of consecutive samples, rules out
cumulative drift), repeated evaluation never changes the remembered
coordinates — at every prefix of the run — and consecutive emissions are
spaced more than one heartbeat interval apart, so at most one message
falls in any window of one heartbeat interval. -/
theorem hb_stationary_run_emissions (st : HB.TrackerState) (l : List (ℤ × GpsSample))
    (hset : st.previousCoordinatesSet = true)
    (hl : ∀ p ∈ l, p.2.gpsFix = true ∧
          HB.f_abs (st.previousLon - p.2.lon) ≤ 0.001 ∧
          HB.f_abs (st.previousLat - p.2.lat) ≤ 0.001) :
    (∀ l1 l2, l = l1 ++ l2 →
       (HB.runList st l1).1.previousLon = st.previousLon ∧
       (HB.runList st l1).1.previousLat = st.previousLat ∧
       (HB.runList st l1).1.previousCoordinatesSet = true) ∧
    List.Chain' (fun a b => HB.heartbeatMs < b.1 - a.1) (HB.runList st l).2 := by
  have hsb : HB.SameBase st st := ⟨rfl, rfl, hset⟩
  constructor
  · intro l1 l2 hsplit
    have hl1 : HB.Stationary st l1 := by
      intro p hp
      exact hl p (by rw [hsplit]; exact List.mem_append_left _ hp)
    exact (HB.run_stationary st l1 st hsb hl1).1
  · exact (HB.run_stationary st l st hsb hl).2.1

theorem hb_stationary_run_emissions_witness :
    (HB.runList stHG [(1, sampleOrigin)]).1.previousLon = stHG.previousLon ∧
    List.Chain' (fun a b => HB.heartbeatMs < b.1 - a.1) (HB.runList stHG [(1, sampleOrigin)]).2 := by
  have h := hb_stationary_run_emissions stHG [(1, sampleOrigin)] rfl
    (by
      intro p hp
      rw [List.mem_singleton] at hp
      subst hp
      refine ⟨rfl, ?_, ?_⟩ <;> norm_num [HB.f_abs, stHG, sampleOrigin])
  exact ⟨(h.1 [(1, sampleOrigin)] [] rfl).1, h.2⟩

end Foodtrax
